import Mathlib

/-!
Shallow embedding of the Qxam PDF-exam generator (Python) and proofs about it.

Source files embedded here:
  * src/src/memory_optimizer.py  (MemoryOptimizer)
  * src/src/pdf_processor.py     (PDFProcessor)
  * src/src/question_generator.py (QuestionGenerator)

Conventions: Python ints are Nat/Int, Python floats that only undergo field
arithmetic are ℚ, Python floor division on nonnegative ints is Nat division,
fallible operations return Except, and external effects (psutil reads, the
HF text2text pipeline, random.sample / random.shuffle) are passed in as
explicit parameters whose defining properties appear as hypotheses.
-/

namespace Qxam

/-! ### MemoryOptimizer (src/src/memory_optimizer.py) -/

/-- Embeds `MemoryOptimizer.get_optimal_chunk_size` (memory_optimizer.py,
lines 152-171).  `system_memory_percent` is the value `get_memory_usage`
reads from `psutil.virtual_memory().percent`; it is passed in explicitly.
`document_length` is accepted but unused, exactly as in the source.
Python `//` on nonnegative ints is Nat division.  The branch order of the
source is kept: `if percent > 80` is tested before `elif percent > 90`. -/
def get_optimal_chunk_size (system_memory_percent : ℚ) (document_length : Nat)
    (base_chunk_size : Nat) : Nat :=
  if 80 < system_memory_percent then base_chunk_size / 2
  else if 90 < system_memory_percent then base_chunk_size / 4
  else base_chunk_size

/-- Fields of `psutil.virtual_memory()` used by `get_memory_usage`. -/
structure VirtualMemory where
  percent : ℚ
  available : ℚ
  total : ℚ
  deriving DecidableEq

/-- The dict returned by `MemoryOptimizer.get_memory_usage`. -/
structure MemoryUsage where
  process_memory_mb : ℚ
  system_memory_percent : ℚ
  system_available_mb : ℚ
  system_total_mb : ℚ
  deriving DecidableEq

/-- Embeds `MemoryOptimizer.get_memory_usage` (memory_optimizer.py, lines
44-59).  The psutil reads can raise; each is modelled as an `Except` value
passed in by the caller.  The source wraps the reads in no `try`/`except`,
so the `do` block just propagates the first error: `psutil.virtual_memory()`
runs first (line 52), the `memory_info().rss` read afterwards (line 55). -/
def get_memory_usage (proc_rss : Except String ℚ)
    (virtual_memory : Except String VirtualMemory) : Except String MemoryUsage := do
  let m ← virtual_memory
  let rss ← proc_rss
  pure { process_memory_mb := rss / 1024 / 1024
         system_memory_percent := m.percent
         system_available_mb := m.available / 1024 / 1024
         system_total_mb := m.total / 1024 / 1024 }

/-! ### Grading (question_generator.py, grade_multiple_choice_exam) -/

/-- One exam entry as built by `generate_multiple_choice_exam`: a dict with
keys `question`, `options`, `answer`. -/
structure ExamItem where
  question : String
  options : List String
  answer : String
  deriving DecidableEq

/-- One entry of the `details` list built by `grade_multiple_choice_exam`. -/
structure AnswerDetail where
  question : String
  selected : String
  correct_answer : String
  is_correct : Bool
  deriving DecidableEq

/-- The dict returned by `grade_multiple_choice_exam`. -/
structure GradeResult where
  score : ℚ
  correct : Nat
  total : Nat
  details : List AnswerDetail
  deriving DecidableEq

/-- Loop body of `grade_multiple_choice_exam` (question_generator.py, lines
63-74): the accumulator carries the `correct` counter and the `details`
list, one `zip` pair is consumed per iteration. -/
def gradeStep (acc : Nat × List AnswerDetail) (p : ExamItem × String) :
    Nat × List AnswerDetail :=
  let is_correct := p.2 == p.1.answer
  ((if is_correct then acc.1 + 1 else acc.1),
    acc.2 ++ [{ question := p.1.question, selected := p.2,
                correct_answer := p.1.answer, is_correct := is_correct }])

/-- Embeds `QuestionGenerator.grade_multiple_choice_exam` (question_generator.py,
lines 54-82).  Python `zip(exam, user_answers)` truncates to the shorter
list; `total = len(exam)`; `score = correct / total * 100 if total > 0 else 0`
(float arithmetic modelled in ℚ). -/
def grade_multiple_choice_exam (exam : List ExamItem) (user_answers : List String) :
    GradeResult :=
  { score := if 0 < exam.length then
        ((((exam.zip user_answers).foldl gradeStep (0, [])).1 : ℚ) / exam.length) * 100
      else 0
    correct := ((exam.zip user_answers).foldl gradeStep (0, [])).1
    total := exam.length
    details := ((exam.zip user_answers).foldl gradeStep (0, [])).2 }

/-- The predicate `user_ans == q['answer']` applied to one zip pair. -/
def answerMatches (p : ExamItem × String) : Bool := p.2 == p.1.answer

lemma gradeFold_spec (l : List (ExamItem × String)) :
    ∀ c ds, ((l.foldl gradeStep (c, ds)).1 = c + l.countP answerMatches) ∧
      (l.foldl gradeStep (c, ds)).2.length = ds.length + l.length := by
  induction l with
  | nil => intro c ds; simp
  | cons p rest ih =>
    intro c ds
    rcases ih (if p.2 == p.1.answer then c + 1 else c)
      (ds ++ [{ question := p.1.question, selected := p.2,
                correct_answer := p.1.answer, is_correct := p.2 == p.1.answer }]) with ⟨h1, h2⟩
    constructor
    · simp only [List.foldl_cons, gradeStep, List.countP_cons, answerMatches]
      rw [h1]
      by_cases hm : (p.2 == p.1.answer) = true
      · simp [hm]; omega
      · simp [hm]
    · simp only [List.foldl_cons, gradeStep, List.length_cons]
      rw [h2]
      simp; omega

/-! ### Text chunking (pdf_processor.py, create_text_chunks) -/

/-- Helper for `splitWords`: scans the character list, accumulating the
current word; whitespace ends the word. -/
def splitWordsAux : List Char → List Char → List String
  | [], cur => if cur == ([] : List Char) then [] else [String.mk cur]
  | c :: rest, cur =>
    if c.isWhitespace then
      (if cur == ([] : List Char) then [] else [String.mk cur]) ++ splitWordsAux rest []
    else splitWordsAux rest (cur ++ [c])

/-- Python `text.split()` (no argument): split on whitespace runs, dropping
empty pieces. -/
def splitWords (text : String) : List String := splitWordsAux text.data []

/-- Python `str.strip()`: drop leading and trailing whitespace. -/
def pyStrip (s : String) : String :=
  String.mk ((s.data.dropWhile Char.isWhitespace).reverse.dropWhile
    Char.isWhitespace).reverse

/-- Helper for `pySplitOn`: Python `str.split(sep)` for a one-character
separator, keeping empty pieces. -/
def splitOnCharAux (sep : Char) : List Char → List Char → List String
  | [], cur => [String.mk cur]
  | c :: rest, cur =>
    if c == sep then String.mk cur :: splitOnCharAux sep rest []
    else splitOnCharAux sep rest (cur ++ [c])

/-- Python `str.split(sep)` for a one-character separator. -/
def pySplitOn (sep : Char) (s : String) : List String := splitOnCharAux sep s.data []

/-- Python `sep.join(parts)`. -/
def pyJoin (sep : String) : List String → String
  | [] => ""
  | s :: rest => rest.foldl (fun acc t => acc ++ sep ++ t) s

/-- Python `str.lower()` (ASCII range, which is all the code compares). -/
def pyLower (s : String) : String := String.mk (s.data.map Char.toLower)

/-- Python `needle in s` for a single character. -/
def pyContainsChar (c : Char) (s : String) : Bool := s.data.contains c

/-- Python `s.startswith(p)`. -/
def pyStartsWith (p s : String) : Bool := p.data.isPrefixOf s.data

/-- Fuel-indexed embedding of the `while start_idx < total_words` loop of
`PDFProcessor.create_text_chunks` (pdf_processor.py, lines 129-150), recording
the word-index window `(start_idx, end_idx)` of every iteration, in order.
`none` means the fuel ran out: the loop has not finished within `fuel`
iterations.  The loop body: `end_idx = min(start_idx + optimal_chunk_size,
total_words)`; yield the window; `if end_idx >= total_words: break`;
`start_idx = end_idx - overlap`.  The subtraction is Nat subtraction, which
agrees with Python whenever `overlap ≤ end_idx` (in particular whenever
`overlap ≤ optimal_chunk_size`, the only regime the claims touch); Python
would otherwise fall into negative-index slicing. -/
def chunkWindowsF (optimal_chunk_size overlap total_words : Nat) :
    Nat → Nat → Option (List (Nat × Nat))
  | 0, _ => none
  | fuel + 1, start_idx =>
    if start_idx < total_words then
      let end_idx := min (start_idx + optimal_chunk_size) total_words
      if total_words ≤ end_idx then some [(start_idx, end_idx)]
      else
        match chunkWindowsF optimal_chunk_size overlap total_words fuel
            (end_idx - overlap) with
        | none => none
        | some rest => some ((start_idx, end_idx) :: rest)
    else some []

/-- `' '.join(words[start:end])` for a window `(start, end)`. -/
def windowText (words : List String) (w : Nat × Nat) : String :=
  pyJoin " " ((words.drop w.1).take (w.2 - w.1))

/-- Embeds `PDFProcessor.create_text_chunks` (pdf_processor.py, lines
109-152) as the finite list of yielded chunks, or `none` when the loop does
not terminate within `fuel` iterations.  `optimal_chunk_size` is the value
returned by `memory_optimizer.get_optimal_chunk_size` (passed in, since it
depends on ambient system memory); `overlap` is `self.overlap`.  A window is
yielded only when `len(chunk_text.strip()) > 50` (line 141). -/
def create_text_chunks (optimal_chunk_size overlap : Nat) (text : String)
    (fuel : Nat) : Option (List String) :=
  (chunkWindowsF optimal_chunk_size overlap (splitWords text).length fuel 0).map
    (fun ws => (ws.map (windowText (splitWords text))).filter
      (fun c => decide (50 < (pyStrip c).length)))

/-- The window list of a terminating run, with the canonical fuel
`total_words + 1` (enough whenever `overlap < optimal_chunk_size`). -/
def chunkWindows (optimal_chunk_size overlap total_words : Nat) : List (Nat × Nat) :=
  (chunkWindowsF optimal_chunk_size overlap total_words (total_words + 1) 0).getD []

/-- The chunking loop never terminates once the recommended window size does
not exceed the overlap and the text is longer than one window: every fuel
bound is exhausted. -/
def chunkingDiverges (optimal_chunk_size overlap : Nat) (text : String) : Prop :=
  ∀ fuel : Nat, create_text_chunks optimal_chunk_size overlap text fuel = none

lemma chunkWindowsF_stuck : ∀ fuel, chunkWindowsF 2 2 3 fuel 0 = none := by
  intro fuel
  induction fuel with
  | zero => rfl
  | succ m ih => simp [chunkWindowsF, ih]

lemma chunkWindowsF_terminates (S O W : Nat) (hOS : O < S) :
    ∀ fuel start, W ≤ start + fuel →
      (chunkWindowsF S O W (fuel + 1) start).isSome := by
  intro fuel
  induction fuel with
  | zero =>
    intro start h
    rw [chunkWindowsF, if_neg (by omega : ¬ start < W)]
    rfl
  | succ m ih =>
    intro start h
    rw [chunkWindowsF]
    by_cases hs : start < W
    · rw [if_pos hs]
      by_cases he : W ≤ min (start + S) W
      · rw [if_pos he]; rfl
      · rw [if_neg he]
        have hrec := ih (min (start + S) W - O) (by omega)
        rcases Option.isSome_iff_exists.mp hrec with ⟨ws, hws⟩
        rw [hws]
        rfl
    · rw [if_neg hs]
      rfl

/-- The relation between consecutive windows of the chunking loop: the next
window starts exactly `overlap` words before the previous window's end. -/
def windowChain (overlap : Nat) (p q : Nat × Nat) : Prop := q.1 + overlap = p.2

lemma chunkWindowsF_spec (S O W : Nat) (hOS : O < S) :
    ∀ fuel start ws, chunkWindowsF S O W fuel start = some ws → start < W →
      ws ≠ [] ∧
      ws.head? = some (start, min (start + S) W) ∧
      (ws.getLast?).map Prod.snd = some W ∧
      List.Chain' (windowChain O) ws ∧
      (∀ p ∈ ws, p.2 = min (p.1 + S) W) ∧
      (∀ k, start ≤ k → k < W → ∃ p ∈ ws, p.1 ≤ k ∧ k < p.2) := by
  intro fuel
  induction fuel with
  | zero =>
    intro start ws hws
    exact absurd hws (by simp [chunkWindowsF])
  | succ m ih =>
    intro start ws hws hstart
    rw [chunkWindowsF, if_pos hstart] at hws
    by_cases he : W ≤ min (start + S) W
    · rw [if_pos he] at hws
      have hEq : min (start + S) W = W := by omega
      cases hws
      refine ⟨by simp, rfl, by simp [hEq], List.chain'_singleton _, ?_, ?_⟩
      · intro p hp
        rcases List.mem_singleton.mp hp with rfl
        rfl
      · intro k hk1 hk2
        exact ⟨(start, min (start + S) W), List.mem_singleton_self _, hk1, by omega⟩
    · rw [if_neg he] at hws
      have hmin : min (start + S) W = start + S := by omega
      rw [hmin] at hws
      cases hrec : chunkWindowsF S O W m (start + S - O) with
      | none => rw [hrec] at hws; exact Option.noConfusion hws
      | some rest =>
        rw [hrec] at hws
        cases hws
        have hstart2 : start + S - O < W := by omega
        rcases ih (start + S - O) rest hrec hstart2 with
          ⟨hne, hhead, hlast, hchain, hext, hcov⟩
        rw [hmin]
        refine ⟨by simp, rfl, ?_, ?_, ?_, ?_⟩
        · rcases rest, hne with ⟨⟨⟩, _⟩ | ⟨⟨r, t⟩, _⟩
          · exact absurd rfl hne
          · rw [List.getLast?_cons_cons]
            exact hlast
        · rw [List.chain'_cons']
          refine ⟨?_, hchain⟩
          intro q hq
          rw [hhead] at hq
          cases hq
          show (start + S - O) + O = start + S
          omega
        · intro p hp
          rcases List.mem_cons.mp hp with rfl | hp2
          · show start + S = min (start + S) W
            omega
          · exact hext p hp2
        · intro k hk1 hk2
          by_cases hk : k < start + S
          · exact ⟨(start, start + S), List.mem_cons_self _ _, hk1, hk⟩
          · rcases hcov k (by omega) hk2 with ⟨p, hp, h1, h2⟩
            exact ⟨p, List.mem_cons_of_mem _ hp, h1, h2⟩

/-- A text of four 30-character words, used to instantiate the chunking
theorems at a concrete input. -/
def wText4 : String :=
  "aaaaaaaaaaaaaaaaaaaaaaaaaaaaaa bbbbbbbbbbbbbbbbbbbbbbbbbbbbbb cccccccccccccccccccccccccccccc dddddddddddddddddddddddddddddd"

/-- A text whose second (final) chunk window joins to 24 characters and is
therefore dropped by the `> 50` filter of `create_text_chunks`. -/
def gapText : String :=
  "aaaaaaaaaaaaaaaaaaaa bbbbbbbbbbbbbbbbbbbb cccccccccccccccccccc dddddddddddddddddddd e f"

/-- C4 (amended): with overlap `O` strictly below window size `S` and every
window's joined text longer than 50 characters, `create_text_chunks` yields
exactly one chunk per window; the first window starts at word 0, the last
window ends at the last word, each window after the first starts exactly `O`
words before the previous window's end, every window ends at
`min (start + S)` (total words), and the windows cover the whole word list
without gaps. -/
theorem create_text_chunks_overlap_coverage (S O : Nat) (text : String)
    (hOS : O < S) (hW : 0 < (splitWords text).length)
    (hlong : ∀ w ∈ chunkWindows S O (splitWords text).length,
      50 < (pyStrip (windowText (splitWords text) w)).length) :
    create_text_chunks S O text ((splitWords text).length + 1) =
      some ((chunkWindows S O (splitWords text).length).map
        (windowText (splitWords text))) ∧
    (chunkWindows S O (splitWords text).length).head? =
      some (0, min S (splitWords text).length) ∧
    ((chunkWindows S O (splitWords text).length).getLast?).map Prod.snd =
      some (splitWords text).length ∧
    List.Chain' (windowChain O) (chunkWindows S O (splitWords text).length) ∧
    (∀ p ∈ chunkWindows S O (splitWords text).length,
      p.2 = min (p.1 + S) (splitWords text).length) ∧
    (∀ k < (splitWords text).length,
      ∃ p ∈ chunkWindows S O (splitWords text).length, p.1 ≤ k ∧ k < p.2) := by
  have hsome := chunkWindowsF_terminates S O (splitWords text).length hOS
    (splitWords text).length 0 (by omega)
  rcases Option.isSome_iff_exists.mp hsome with ⟨ws, hws⟩
  have hwindows : chunkWindows S O (splitWords text).length = ws := by
    unfold chunkWindows
    rw [hws]
    rfl
  rcases chunkWindowsF_spec S O (splitWords text).length hOS
      ((splitWords text).length + 1) 0 ws hws hW with
    ⟨_, hhead, hlast, hchain, hext, hcov⟩
  rw [hwindows]
  refine ⟨?_, ?_, hlast, hchain, ?_, ?_⟩
  · unfold create_text_chunks
    rw [hws]
    have hfilter : (ws.map (windowText (splitWords text))).filter
        (fun c => decide (50 < (pyStrip c).length)) =
        ws.map (windowText (splitWords text)) := by
      apply List.filter_eq_self.mpr
      intro c hc
      rcases List.mem_map.mp hc with ⟨w, hwmem, rfl⟩
      exact decide_eq_true (hlong w (by rw [hwindows]; exact hwmem))
    rw [Option.map_some', hfilter]
  · rw [hhead, Nat.zero_add]
  · intro p hp
    exact hext p hp
  · intro k hk
    exact hcov k (Nat.zero_le k) hk

/-- C4 counterexample: for `gapText` (six words, the last two one character
long) with window size 4 and overlap 1, the loop visits windows `(0,4)` and
`(3,6)`, but the second window's joined text has only 24 characters, so only
the first window is yielded: the words `e` and `f` of the text appear in no
produced chunk, so the produced chunks do not cover the full word list. -/
theorem create_text_chunks_coverage_gap_cex :
    create_text_chunks 4 1 gapText 7 =
      some ["aaaaaaaaaaaaaaaaaaaa bbbbbbbbbbbbbbbbbbbb cccccccccccccccccccc dddddddddddddddddddd"] ∧
    "f" ∈ splitWords gapText ∧
    ¬ "f" ∈ splitWords
        "aaaaaaaaaaaaaaaaaaaa bbbbbbbbbbbbbbbbbbbb cccccccccccccccccccc dddddddddddddddddddd" :=
  ⟨by decide, by decide, by decide⟩

/-- Witness for `create_text_chunks_overlap_coverage` at a concrete input:
window size 3, overlap 1, a text of four 30-character words. -/
theorem create_text_chunks_overlap_coverage_witness :
    create_text_chunks 3 1 wText4 ((splitWords wText4).length + 1) =
      some ((chunkWindows 3 1 (splitWords wText4).length).map
        (windowText (splitWords wText4))) :=
  (create_text_chunks_overlap_coverage 3 1 wText4 (by decide) (by decide)
    (by decide)).1

/-- C5 (amended): the chunking loop terminates whenever the effective window
size strictly exceeds the overlap — fuel `total_words + 1` always suffices.
This covers every size the Memory Monitor recommends in the shipped
configuration (512, 256 or 128 words against an overlap of 50). -/
theorem create_text_chunks_terminates_of_overlap_lt (optimal_chunk_size overlap : Nat)
    (text : String) (hOS : overlap < optimal_chunk_size) :
    (create_text_chunks optimal_chunk_size overlap text
      ((splitWords text).length + 1)).isSome := by
  unfold create_text_chunks
  rcases Option.isSome_iff_exists.mp (chunkWindowsF_terminates optimal_chunk_size
    overlap (splitWords text).length hOS (splitWords text).length 0 (by omega)) with
    ⟨ws, hws⟩
  rw [hws]
  rfl

/-- Witness for `create_text_chunks_terminates_of_overlap_lt`: window size 2,
overlap 1, a three-word text. -/
theorem create_text_chunks_terminates_witness :
    (create_text_chunks 2 1 "uno dos tres" 4).isSome :=
  create_text_chunks_terminates_of_overlap_lt 2 1 "uno dos tres" (by decide)

/-- C5 counterexample: with recommended window size 2 equal to the overlap 2
and a three-word text, every fuel bound is exhausted — the
`while start_idx < total_words` loop of `create_text_chunks` never
terminates, because `start_idx` is reset to `end_idx - overlap = 0` on every
iteration. -/
theorem create_text_chunks_diverges_cex :
    chunkingDiverges 2 2 "palabra larga tres" := by
  intro fuel
  unfold create_text_chunks
  rw [show (splitWords "palabra larga tres").length = 3 from rfl,
    chunkWindowsF_stuck fuel]
  rfl

/-! ### Claim theorems: C1, C8, C6, C10 -/

/-- C1 (evaluation at the failing input): `get_optimal_chunk_size` returns
the base at 70% utilization and the halved base at 85%, but at 95% it also
returns the halved base, 256, not the quartered base 128 the spec asks for:
the `elif percent > 90` branch is shadowed by `if percent > 80` and is
unreachable. -/
theorem get_optimal_chunk_size_quarter_branch_unreachable :
    get_optimal_chunk_size 70 10000 512 = 512 ∧
    get_optimal_chunk_size 85 10000 512 = 256 ∧
    get_optimal_chunk_size 95 10000 512 = 256 ∧
    ¬ get_optimal_chunk_size 95 10000 512 = 128 := by
  refine ⟨?_, ?_, ?_, ?_⟩ <;> norm_num [get_optimal_chunk_size]

/-- C8 counterexample: when the process-memory read raises,
`get_memory_usage` returns the propagated error, not a zeroed snapshot. -/
theorem get_memory_usage_error_cex :
    get_memory_usage (Except.error "psutil read failed")
        (Except.ok ⟨85, 1000, 4000⟩) = Except.error "psutil read failed" ∧
    ¬ get_memory_usage (Except.error "psutil read failed")
        (Except.ok ⟨85, 1000, 4000⟩) = Except.ok ⟨0, 0, 0, 0⟩ := by
  refine ⟨rfl, ?_⟩
  intro h
  exact Except.noConfusion h

/-- C8 (amended): `get_memory_usage` wraps the psutil reads in no
`try`/`except`: a failing read propagates its error to the caller (the
virtual-memory read runs first), and only when both reads succeed does it
return the snapshot computed from them. -/
theorem get_memory_usage_propagates (e : String) (rss : ℚ) (m : VirtualMemory) :
    get_memory_usage (Except.error e) (Except.ok m) = Except.error e ∧
    get_memory_usage (Except.ok rss) (Except.error e) = Except.error e ∧
    get_memory_usage (Except.ok rss) (Except.ok m) =
      Except.ok { process_memory_mb := rss / 1024 / 1024
                  system_memory_percent := m.percent
                  system_available_mb := m.available / 1024 / 1024
                  system_total_mb := m.total / 1024 / 1024 } :=
  ⟨rfl, rfl, rfl⟩

/-- C6: on an exam of `N` items with `N` user answers of which exactly `k`
match the recorded correct answer by exact string equality,
`grade_multiple_choice_exam` reports `correct = k`, `total = N`,
`score = 100 * k / N`, and `score = 0` when `N = 0`. -/
theorem grade_multiple_choice_exam_correctness (exam : List ExamItem)
    (user_answers : List String) (k : Nat)
    (hlen : user_answers.length = exam.length)
    (hk : (exam.zip user_answers).countP answerMatches = k) :
    (grade_multiple_choice_exam exam user_answers).correct = k ∧
    (grade_multiple_choice_exam exam user_answers).total = exam.length ∧
    (0 < exam.length →
      (grade_multiple_choice_exam exam user_answers).score =
        100 * (k : ℚ) / exam.length) ∧
    (exam.length = 0 → (grade_multiple_choice_exam exam user_answers).score = 0) := by
  rcases gradeFold_spec (exam.zip user_answers) 0 [] with ⟨h1, _⟩
  have hc : ((exam.zip user_answers).foldl gradeStep (0, [])).1 = k := by omega
  refine ⟨hc, rfl, ?_, ?_⟩
  · intro hN
    show (if 0 < exam.length then
        ((((exam.zip user_answers).foldl gradeStep (0, [])).1 : ℚ) / exam.length) * 100
      else 0) = 100 * (k : ℚ) / exam.length
    rw [if_pos hN, hc]
    ring
  · intro h0
    show (if 0 < exam.length then
        ((((exam.zip user_answers).foldl gradeStep (0, [])).1 : ℚ) / exam.length) * 100
      else 0) = 0
    rw [if_neg (by omega)]

/-- A concrete two-item exam for the grading witnesses. -/
def wExam : List ExamItem :=
  [{ question := "Pregunta uno", options := ["a", "b"], answer := "a" },
   { question := "Pregunta dos", options := ["a", "b"], answer := "b" }]

/-- Witness for `grade_multiple_choice_exam_correctness`: two items, two
answers, exactly one match. -/
theorem grade_multiple_choice_exam_correctness_witness :
    (grade_multiple_choice_exam wExam ["a", "a"]).correct = 1 ∧
    (grade_multiple_choice_exam wExam ["a", "a"]).total = 2 :=
  ⟨(grade_multiple_choice_exam_correctness wExam ["a", "a"] 1 (by decide) (by decide)).1,
   (grade_multiple_choice_exam_correctness wExam ["a", "a"] 1 (by decide) (by decide)).2.1⟩

/-- C10: with fewer user answers than exam items,
`grade_multiple_choice_exam` silently grades only the zipped prefix: the
`details` list has the length of the answer list, matches are counted only
there (so unanswered items can never count as correct), while `total` is
still the full item count and the score divides by it. -/
theorem grade_multiple_choice_exam_truncates (exam : List ExamItem)
    (user_answers : List String)
    (hlen : user_answers.length ≤ exam.length) :
    (grade_multiple_choice_exam exam user_answers).details.length =
      user_answers.length ∧
    (grade_multiple_choice_exam exam user_answers).total = exam.length ∧
    (grade_multiple_choice_exam exam user_answers).correct =
      (exam.zip user_answers).countP answerMatches ∧
    (grade_multiple_choice_exam exam user_answers).correct ≤ user_answers.length ∧
    (0 < exam.length →
      (grade_multiple_choice_exam exam user_answers).score =
        ((grade_multiple_choice_exam exam user_answers).correct : ℚ) * 100 /
          exam.length) := by
  rcases gradeFold_spec (exam.zip user_answers) 0 [] with ⟨h1, h2⟩
  simp only [List.length_nil, Nat.zero_add] at h1 h2
  have hzip : (exam.zip user_answers).length = user_answers.length := by
    rw [List.length_zip]
    omega
  have hcount := List.countP_le_length (p := answerMatches) (l := exam.zip user_answers)
  have hc : (grade_multiple_choice_exam exam user_answers).correct
      = ((exam.zip user_answers).foldl gradeStep (0, [])).1 := rfl
  refine ⟨?_, rfl, by omega, by omega, ?_⟩
  · show ((exam.zip user_answers).foldl gradeStep (0, [])).2.length = user_answers.length
    omega
  · intro hN
    rw [hc, h1]
    show (if 0 < exam.length then
        ((((exam.zip user_answers).foldl gradeStep (0, [])).1 : ℚ) / exam.length) * 100
      else 0) = _
    rw [if_pos hN, h1]
    ring

/-- Witness for `grade_multiple_choice_exam_truncates`: two items, one
answer. -/
theorem grade_multiple_choice_exam_truncates_witness :
    (grade_multiple_choice_exam wExam ["a"]).details.length = 1 ∧
    (grade_multiple_choice_exam wExam ["a"]).total = 2 :=
  ⟨(grade_multiple_choice_exam_truncates wExam ["a"] (by decide)).1,
   (grade_multiple_choice_exam_truncates wExam ["a"] (by decide)).2.1⟩

/-! ### Page cleaning (pdf_processor.py, _clean_text) -/

/-- True for the characters removed by the first substitution of
`_clean_text` (pdf_processor.py line 92), the character class
`[\x00-\x08\x0b\x0c\x0e-\x1f\x7f-\xff]` (codepoints, since Python operates
on `str`). -/
def removedControlChar (c : Char) : Bool :=
  decide (c.toNat ≤ 8) || decide (c.toNat = 11) || decide (c.toNat = 12) ||
  (decide (14 ≤ c.toNat) && decide (c.toNat ≤ 31)) ||
  (decide (127 ≤ c.toNat) && decide (c.toNat ≤ 255))

/-- The first substitution of `_clean_text`: delete every matching
character. -/
def removeControlChars (text : String) : String :=
  String.mk (text.data.filter (fun c => !removedControlChar c))

/-- Helper for `collapseWhitespace`: the flag records whether the previous
character was whitespace, i.e. whether we are inside a run whose single
replacement space has already been emitted. -/
def collapseWsAux : Bool → List Char → List Char
  | _, [] => []
  | prevWs, c :: rest =>
    if c.isWhitespace then
      (if prevWs then [] else [' ']) ++ collapseWsAux true rest
    else c :: collapseWsAux false rest

/-- The second substitution of `_clean_text` (line 95),
`re.sub(r'\s+', ' ', text)`: every maximal whitespace run becomes a single
space.  Python `\s` also matches `\f`, `\v`, `\x1c`-`\x1f` and `\xa0`, but
those are all removed by `removeControlChars` beforehand, so ASCII
whitespace (as in `Char.isWhitespace`) is a faithful model of what this
stage can still see. -/
def collapseWhitespace (text : String) : String :=
  String.mk (collapseWsAux false text.data)

/-- The `filtered_lines` loop of `_clean_text` (pdf_processor.py lines
98-104): split on newlines, strip each line, keep it only when its length
exceeds 10 (`if len(line) > 10`). -/
def clean_text_lines (text : String) : List String :=
  (pySplitOn '\n' (collapseWhitespace (removeControlChars text))).foldl
    (fun acc line =>
      if 10 < (pyStrip line).length then acc ++ [pyStrip line] else acc) []

/-- Embeds `PDFProcessor._clean_text` (pdf_processor.py lines 81-106). -/
def clean_text (text : String) : String := pyJoin "\n" (clean_text_lines text)

lemma clean_text_lines_foldl (lines : List String) :
    ∀ acc, lines.foldl
      (fun acc line =>
        if 10 < (pyStrip line).length then acc ++ [pyStrip line] else acc) acc =
      acc ++ (lines.map pyStrip).filter (fun l => decide (10 < l.length)) := by
  induction lines with
  | nil => intro acc; simp
  | cons line rest ih =>
    intro acc
    by_cases h : 10 < (pyStrip line).length
    · simp only [List.foldl_cons, if_pos h, ih, List.map_cons,
        List.filter_cons, decide_eq_true h]
      simp
    · simp only [List.foldl_cons, if_neg h, ih, List.map_cons,
        List.filter_cons, decide_eq_false h]
      simp

/-- C9 (amended): `_clean_text` keeps exactly the stripped lines whose
length strictly exceeds 10 characters — so lines of 10 characters or fewer
are dropped, and every surviving line has at least 11 characters.  (The
claim's boundary is off by one: a line of exactly 10 characters is
dropped, not kept.) -/
theorem clean_text_filters_short_lines (text : String) :
    clean_text_lines text =
      ((pySplitOn '\n' (collapseWhitespace (removeControlChars text))).map
        pyStrip).filter (fun l => decide (10 < l.length)) ∧
    ∀ l ∈ clean_text_lines text, 10 < l.length := by
  have h := clean_text_lines_foldl
    (pySplitOn '\n' (collapseWhitespace (removeControlChars text))) []
  refine ⟨by simpa [clean_text_lines] using h, ?_⟩
  intro l hl
  rw [show clean_text_lines text =
    ((pySplitOn '\n' (collapseWhitespace (removeControlChars text))).map
      pyStrip).filter (fun l => decide (10 < l.length)) from by
        simpa [clean_text_lines] using h] at hl
  exact of_decide_eq_true (List.mem_filter.mp hl).2

/-- Witness for `clean_text_filters_short_lines`: the 11-character input
`abcdefghijk` survives cleaning, hence has length above 10. -/
theorem clean_text_filters_short_lines_witness :
    (10 : Nat) < ("abcdefghijk" : String).length :=
  (clean_text_filters_short_lines "abcdefghijk").2 "abcdefghijk" (by decide)

/-- C9 counterexample: a line of exactly 10 characters is dropped by
`_clean_text` (the output is empty), while the claim says such a line is
kept; an 11-character line is kept unchanged. -/
theorem clean_text_ten_char_line_cex :
    ("abcdefghij" : String).length = 10 ∧
    clean_text "abcdefghij" = "" ∧
    ("abcdefghijk" : String).length = 11 ∧
    clean_text "abcdefghijk" = "abcdefghijk" :=
  ⟨by decide, by decide, by decide, by decide⟩

/-! ### Streaming cleanup schedule (pdf_processor.py, process_pdf_streaming) -/

/-- One record yielded by `process_pdf_streaming` (the `metadata` entry,
external fitz data, is not modelled). -/
structure StreamRecord where
  chunk_id : Nat
  text : String
  chunk_length : Nat
  deriving DecidableEq

/-- Embeds the yield/cleanup schedule of `PDFProcessor.process_pdf_streaming`
(pdf_processor.py lines 180-207): the chunks are enumerated from 0, and
after yielding record `i` the code calls `memory_optimizer.cleanup_memory()`
— the non-forced reclaim — exactly when `i % 5 == 0`.  Each list entry is a
yielded record paired with whether that cleanup call follows it. -/
def process_pdf_streaming (chunks : List String) : List (StreamRecord × Bool) :=
  chunks.enum.map (fun p =>
    ({ chunk_id := p.1, text := p.2, chunk_length := p.2.length }, p.1 % 5 == 0))

/-- C7 (amended): the non-forced reclaim runs after the `r`-th yielded
record (counting from 1) exactly when `(r - 1) % 5 == 0`: records 1, 6, 11,
… trigger it, while records 5, 10, 15, … do not. -/
theorem process_pdf_streaming_cleanup_schedule (chunks : List String) (r : Nat)
    (h1 : 1 ≤ r) (h2 : r ≤ chunks.length) :
    ((process_pdf_streaming chunks).get? (r - 1)).map (fun e => e.2) =
      some ((r - 1) % 5 == 0) := by
  have hlt : r - 1 < chunks.length := by omega
  rcases List.get?_eq_get hlt with h
  rw [process_pdf_streaming, List.get?_map, List.get?_enum, h]
  rfl

/-- Witness for `process_pdf_streaming_cleanup_schedule`: the first record
(r = 1) is followed by a cleanup call. -/
theorem process_pdf_streaming_cleanup_schedule_witness :
    ((process_pdf_streaming ["c1", "c2", "c3", "c4", "c5", "c6"]).get? 0).map
      (fun e => e.2) = some true :=
  process_pdf_streaming_cleanup_schedule ["c1", "c2", "c3", "c4", "c5", "c6"] 1
    (by decide) (by decide)

/-- C7 counterexample: over five streamed records, the cleanup flags are
`[true, false, false, false, false]` — record 1 triggers the reclaim and
record 5 does not, the opposite of the claimed schedule
`[false, false, false, false, true]`. -/
theorem process_pdf_streaming_cleanup_cex :
    (process_pdf_streaming ["c1", "c2", "c3", "c4", "c5"]).map (fun e => e.2) =
      [true, false, false, false, false] ∧
    ¬ (process_pdf_streaming ["c1", "c2", "c3", "c4", "c5"]).map (fun e => e.2) =
      [false, false, false, false, true] :=
  ⟨by decide, by decide⟩

/-! ### Question generation (question_generator.py, generate_questions_from_text) -/

/-- `[.!?]`, the lookbehind class of the sentence-splitting regex of
`generate_questions_from_text` (question_generator.py line 198). -/
def sentenceBoundary (c : Char) : Bool := c == '.' || c == '!' || c == '?'

/-- State machine for `re.split(r'(?<=[.!?])\s+', text)`: `cur` is the piece
being built, `lastPunct` records whether the previously consumed character
was one of `.!?` (the lookbehind), and `skipping` means we are inside the
matched whitespace run — the separator, which is dropped. -/
def splitSentencesAux : List Char → List Char → Bool → Bool → List String
  | [], cur, _, _ => [String.mk cur]
  | c :: rest, cur, lastPunct, skipping =>
    if skipping then
      if c.isWhitespace then splitSentencesAux rest cur lastPunct true
      else splitSentencesAux rest [c] (sentenceBoundary c) false
    else if c.isWhitespace && lastPunct then
      String.mk cur :: splitSentencesAux rest [] false true
    else splitSentencesAux rest (cur ++ [c]) (sentenceBoundary c) false

/-- `re.split(r'(?<=[.!?])\s+', text)` (question_generator.py line 198). -/
def splitSentences (text : String) : List String :=
  splitSentencesAux text.data [] false false

/-- The Spanish-model validation of one generated question
(question_generator.py lines 241-248): non-empty, not seen before, length
strictly between 10 and 200, contains `¿` or `?`, and its lowercased form
does not start with an English question word. -/
def validQuestionEs (used : List String) (q : String) : Bool :=
  !(q == "") && !(used.contains q) && decide (10 < q.length) &&
  decide (q.length < 200) && (pyContainsChar '¿' q || pyContainsChar '?' q) &&
  !(pyStartsWith "what" (pyLower q)) && !(pyStartsWith "who" (pyLower q)) &&
  !(pyStartsWith "when" (pyLower q)) && !(pyStartsWith "where" (pyLower q)) &&
  !(pyStartsWith "why" (pyLower q)) && !(pyStartsWith "how" (pyLower q))

/-- The English-model validation (question_generator.py lines 227-232). -/
def validQuestionEn (used : List String) (q : String) : Bool :=
  !(q == "") && !(used.contains q) && decide (10 < q.length) &&
  decide (q.length < 200) && pyContainsChar '?' q &&
  (match q.data with | [] => false | c :: _ => c.isUpper) &&
  !(pyContainsChar '¿' q) && !(pyContainsChar '¡' q) &&
  !(pyStartsWith "context:" (pyLower q)) && !(pyStartsWith "answer:" (pyLower q))

/-- The prompt built for one sentence (question_generator.py lines
208-213). -/
def questionPrompt (isEs : Bool) (s : String) : String :=
  if isEs then "contexto: " ++ s ++ " respuesta: " ++ s
  else "generate question: " ++ s ++ " answer: " ++ s

/-- Processing of one pipeline result (`for r in result`, lines 223-254):
strip the generated text and append it to the accepted questions when it
validates, also recording it in `used`.  The accumulator is
`(questions, used)`. -/
def appendValid (isEs : Bool) (acc : List String × List String)
    (generated : String) : List String × List String :=
  if (if isEs then validQuestionEs acc.2 (pyStrip generated)
      else validQuestionEn acc.2 (pyStrip generated)) then
    (acc.1 ++ [pyStrip generated], acc.2 ++ [pyStrip generated])
  else acc

/-- The sentence loop of `generate_questions_from_text` (lines 201-256):
skip sentences shorter than 30 characters after stripping; stop as soon as
the collected questions reach `num_questions` — a check made only between
sentences; otherwise feed the prompt to the pipeline and fold all of its
results through the validation. -/
def genQuestionsLoop (isEs : Bool) (pipe : String → List String)
    (num_questions : Nat) :
    List String → List String → List String → List String
  | [], questions, _ => questions
  | sent :: rest, questions, used =>
    if (pyStrip sent).length < 30 then
      genQuestionsLoop isEs pipe num_questions rest questions used
    else if num_questions ≤ questions.length then questions
    else
      genQuestionsLoop isEs pipe num_questions rest
        ((pipe (questionPrompt isEs (pyStrip sent))).foldl (appendValid isEs)
          (questions, used)).1
        ((pipe (questionPrompt isEs (pyStrip sent))).foldl (appendValid isEs)
          (questions, used)).2

/-- Embeds `QuestionGenerator.generate_questions_from_text`
(question_generator.py lines 186-258), returning the accepted question
texts in order.  `pipe` is the external HF text2text pipeline, called with
`num_return_sequences=3`; `isEs` is `model_name.startswith('mrm8488')`,
which is true for the default model. -/
def generate_questions_from_text (isEs : Bool) (pipe : String → List String)
    (text : String) (num_questions : Nat) : List String :=
  genQuestionsLoop isEs pipe num_questions (splitSentences text) [] []

lemma appendValid_length (isEs : Bool) (qs used : List String) (r : String) :
    (appendValid isEs (qs, used) r).1.length ≤ qs.length + 1 := by
  unfold appendValid
  by_cases h : (if isEs then validQuestionEs used (pyStrip r)
      else validQuestionEn used (pyStrip r)) = true
  · rw [if_pos h]
    simp
  · rw [if_neg h]
    exact Nat.le_succ qs.length

lemma appendValid_foldl_length (isEs : Bool) (rs : List String) :
    ∀ qs used : List String,
      (rs.foldl (appendValid isEs) (qs, used)).1.length ≤ qs.length + rs.length := by
  induction rs with
  | nil => intro qs used; simp
  | cons r rest ih =>
    intro qs used
    simp only [List.foldl_cons, List.length_cons]
    cases happ : appendValid isEs (qs, used) r with
    | mk qs2 used2 =>
      have h1 : qs2.length ≤ qs.length + 1 := by
        have h0 := appendValid_length isEs qs used r
        rw [happ] at h0
        exact h0
      have h2 := ih qs2 used2
      omega

lemma genQuestionsLoop_length (isEs : Bool) (pipe : String → List String)
    (n : Nat) (hpipe : ∀ p, (pipe p).length ≤ 3) :
    ∀ sents questions used, questions.length ≤ n + 2 →
      (genQuestionsLoop isEs pipe n sents questions used).length ≤ n + 2 := by
  intro sents
  induction sents with
  | nil =>
    intro qs used h
    simpa [genQuestionsLoop] using h
  | cons sent rest ih =>
    intro qs used h
    rw [genQuestionsLoop]
    by_cases h30 : (pyStrip sent).length < 30
    · rw [if_pos h30]
      exact ih qs used h
    · rw [if_neg h30]
      by_cases hn : n ≤ qs.length
      · rw [if_pos hn]
        exact h
      · rw [if_neg hn]
        apply ih
        have hb := appendValid_foldl_length isEs
          (pipe (questionPrompt isEs (pyStrip sent))) qs used
        have hp := hpipe (questionPrompt isEs (pyStrip sent))
        omega

/-- C3 (amended): `generate_questions_from_text` can overshoot the requested
count by up to two, and no more: the requested-count check happens only
between sentences, and the sentence that crosses the threshold appends all
of its at most 3 validated pipeline outputs before the loop re-checks, so
the result holds at most `num_questions + 2` questions. -/
theorem generate_questions_at_most_plus_two (isEs : Bool)
    (pipe : String → List String) (text : String) (n : Nat)
    (hpipe : ∀ p, (pipe p).length ≤ 3) :
    (generate_questions_from_text isEs pipe text n).length ≤ n + 2 :=
  genQuestionsLoop_length isEs pipe n hpipe (splitSentences text) [] [] (by simp)

/-- A pipeline stub returning three valid Spanish questions, as
`num_return_sequences=3` does. -/
def cexPipe : String → List String :=
  fun _ => ["¿Pregunta numero uno?", "¿Pregunta numero dos?", "¿Pregunta numero tres?"]

/-- A single sentence longer than 30 characters. -/
def cexSentText : String :=
  "Esta es una oracion suficientemente larga para generar preguntas"

/-- Witness for `generate_questions_at_most_plus_two` at the concrete
pipeline stub. -/
theorem generate_questions_at_most_plus_two_witness :
    (generate_questions_from_text true cexPipe cexSentText 1).length ≤ 3 :=
  generate_questions_at_most_plus_two true cexPipe cexSentText 1
    (fun p => le_refl 3)

/-- C3 counterexample: requesting a single question over a one-sentence
text, the loop enters the sentence with zero questions collected and the
inner loop appends all three validated pipeline outputs — the function
returns 3 question candidates, more than the requested 1. -/
theorem generate_questions_overshoot_cex :
    (generate_questions_from_text true cexPipe cexSentText 1).length = 3 ∧
    ¬ (generate_questions_from_text true cexPipe cexSentText 1).length ≤ 1 :=
  ⟨by decide, by decide⟩

/-! ### Distractors and exam options (question_generator.py) -/

/-- The candidate distractor sentences of `_generate_distractors`
(question_generator.py line 134): split the chunk on `.`, strip each piece,
keep those longer than 10 characters that differ from the correct
answer. -/
def usableSentences (correct context : String) : List String :=
  ((pySplitOn '.' context).map pyStrip).filter
    (fun s => decide (10 < s.length) && !(s == correct))

/-- Embeds `QuestionGenerator._generate_distractors` (lines 129-136).
`sample` stands for `random.sample`; its defining properties are hypotheses
of the theorems below.  The placeholder fallback
`["Opción incorrecta"] * n` is taken only when the sentence list is empty;
otherwise the call returns `random.sample(sentences, min(n, len(sentences)))`
— which silently under-produces when `len(sentences) < n`. -/
def generate_distractors (sample : List String → Nat → List String)
    (correct context : String) (n : Nat) : List String :=
  if (usableSentences correct context).isEmpty then
    List.replicate n "Opción incorrecta"
  else
    sample (usableSentences correct context)
      (min n (usableSentences correct context).length)

/-- The option list of one exam item as assembled by
`generate_multiple_choice_exam` (lines 104-108): `num_options - 1`
requested distractors, then the correct answer appended, then the in-place
`random.shuffle`, modelled as an arbitrary permutation `shuffle`. -/
def exam_item_options (sample : List String → Nat → List String)
    (shuffle : List String → List String) (correct context : String)
    (num_options : Nat) : List String :=
  shuffle (generate_distractors sample correct context (num_options - 1) ++ [correct])

/-- A concrete choice function satisfying the `random.sample` contract:
take the first `k` elements. -/
def takeSample (l : List String) (k : Nat) : List String := l.take k

lemma takeSample_contract : ∀ (l : List String) (k : Nat), k ≤ l.length →
    (takeSample l k).length = k ∧ ∀ x ∈ takeSample l k, x ∈ l := by
  intro l k h
  constructor
  · show (l.take k).length = k
    rw [List.length_take]
    omega
  · intro x hx
    exact List.mem_of_mem_take hx

/-- C2 (amended): for any sampler satisfying the `random.sample` contract
and any permutation as the shuffle, an exam item's option list contains the
recorded correct answer exactly once (whenever the correct answer is not
itself the placeholder string), but its length is `num_options` only when
the chunk has at least `num_options - 1` usable sentences, or none at all
(then every distractor slot is a placeholder).  With `k` usable sentences
and `0 < k < num_options - 1` the list has just `k + 1` options: the
fallback never tops a shortfall up with placeholders. -/
theorem exam_item_options_spec (sample : List String → Nat → List String)
    (shuffle : List String → List String) (correct context : String)
    (num_options : Nat)
    (hsample : ∀ l k, k ≤ l.length →
      (sample l k).length = k ∧ ∀ x ∈ sample l k, x ∈ l)
    (hshuffle : ∀ l : List String, (shuffle l).Perm l)
    (hcorrect : correct ≠ "Opción incorrecta") :
    (exam_item_options sample shuffle correct context num_options).length =
      (if (usableSentences correct context).isEmpty then num_options - 1
       else min (num_options - 1) (usableSentences correct context).length) + 1 ∧
    (exam_item_options sample shuffle correct context num_options).count correct
      = 1 := by
  have hperm := hshuffle
    (generate_distractors sample correct context (num_options - 1) ++ [correct])
  have hlen : (generate_distractors sample correct context (num_options - 1)).length =
      (if (usableSentences correct context).isEmpty then num_options - 1
       else min (num_options - 1) (usableSentences correct context).length) := by
    unfold generate_distractors
    by_cases hemp : (usableSentences correct context).isEmpty
    · rw [if_pos hemp, if_pos hemp, List.length_replicate]
    · rw [if_neg hemp, if_neg hemp, (hsample _ _ (Nat.min_le_right _ _)).1]
  have hnotmem : correct ∉ generate_distractors sample correct context
      (num_options - 1) := by
    unfold generate_distractors
    by_cases hemp : (usableSentences correct context).isEmpty
    · rw [if_pos hemp]
      intro hmem
      exact hcorrect (List.eq_of_mem_replicate hmem)
    · rw [if_neg hemp]
      intro hmem
      have hx := (hsample _ _ (Nat.min_le_right _ _)).2 correct hmem
      rw [usableSentences] at hx
      have hfal := (List.mem_filter.mp hx).2
      simp at hfal
  constructor
  · show (shuffle _).length = _
    rw [hperm.length_eq, List.length_append, List.length_singleton, hlen]
  · show (shuffle _).count correct = 1
    rw [hperm.count_eq, List.count_append, List.count_eq_zero.mpr hnotmem]
    simp

/-- A chunk with exactly two usable distractor sentences. -/
def cexContext : String :=
  "Una primera frase bastante larga. Una segunda frase igualmente larga."

/-- C2 counterexample: a chunk with exactly 2 usable sentences and a
requested option count of 4 produces only 3 options — the correct answer
plus the 2 real sentences, with no placeholder fill. -/
theorem exam_item_options_cex :
    (usableSentences "La respuesta correcta" cexContext).length = 2 ∧
    (exam_item_options takeSample id "La respuesta correcta" cexContext 4).length
      = 3 ∧
    ¬ (exam_item_options takeSample id "La respuesta correcta" cexContext 4).length
      = 4 :=
  ⟨by decide, by decide, by decide⟩

/-- A chunk with three usable distractor sentences. -/
def wContext3 : String :=
  "Frase numero uno con contenido. Frase numero dos con contenido. Frase numero tres con contenido."

/-- Witness for `exam_item_options_spec`: a chunk with three usable
sentences and `num_options = 4` yields exactly 4 options containing the
correct answer once. -/
theorem exam_item_options_spec_witness :
    (exam_item_options takeSample id "Respuesta correcta" wContext3 4).length = 4 ∧
    (exam_item_options takeSample id "Respuesta correcta" wContext3 4).count
      "Respuesta correcta" = 1 := by
  have h := exam_item_options_spec takeSample id "Respuesta correcta" wContext3 4
    takeSample_contract (fun l => List.Perm.refl l) (by decide)
  exact ⟨by rw [h.1]; decide, h.2⟩

end Qxam
